import Mathlib

/-!
Shallow embedding of the `specialoffer` scraper (src/scrapers.py, src/config.py).

The repository is a single-page vehicle-listing scraper:
* `NovaAutoScraper.get_with_retry` — bounded retry with exponential backoff
  around a blocking HTTP GET (src/scrapers.py lines 31–47);
* `NovaAutoScraper.scrape_vehicle_listings` — fetch, parse, select the
  listing nodes and build one record per node, skipping nodes whose
  extraction raises (src/scrapers.py lines 49–78);
* field helpers `_get_text`, `_get_link`, `_get_image`
  (src/scrapers.py lines 80–90);
* module constants `BASE_URL`, `REQUEST_DELAY`, `MAX_RETRIES`, `TIMEOUT`
  (src/scrapers.py lines 15–19) and the unused `SCRAPER_CONFIG` settings
  dictionary (src/config.py).

External effects (network, randomness, `time.sleep`, parsing) are modelled
by oracles carried in an environment record, and the side effects a call
performs are reified as an event trace.  Logging calls are not modelled.
-/

/-- The exception hierarchy `requests.RequestException`: connection/timeout
failures and the non-2xx error raised by `response.raise_for_status()`. -/
inductive RequestException where
  | network (msg : String)
  | httpStatus (code : Nat)
  deriving Repr, DecidableEq

/-- Any Python exception reaching the outer `try` of
`scrape_vehicle_listings`: a propagated `RequestException` or anything else. -/
inductive PyExc where
  | req (e : RequestException)
  | other (msg : String)
  deriving Repr, DecidableEq

/-- An HTTP response as used by the scraper (`response.content`). -/
structure Response where
  content : String
  deriving Repr, DecidableEq

/-- Observable side effects of the fetcher: `time.sleep(seconds)` and
`self.session.get(url, timeout=..., headers={'User-Agent': ...})`. -/
inductive Event where
  | sleep (seconds : ℚ)
  | request (url : String) (timeout : Nat) (userAgent : String)
  deriving Repr, DecidableEq

/-- `BASE_URL` module constant (src/scrapers.py line 16). -/
def BASE_URL : String := "https://novaautoland.com"

/-- `MAX_RETRIES` module constant (src/scrapers.py line 18). -/
def MAX_RETRIES : Nat := 3

/-- `TIMEOUT` module constant (src/scrapers.py line 19). -/
def TIMEOUT : Nat := 10

/-- Oracles for the fetcher's external effects.
`requestDelay` is the value of the module constant
`REQUEST_DELAY = random.uniform(1, 5)`, drawn once at module load (before any
scraper is constructed) and never redrawn (src/scrapers.py line 17).
`uaRandom i` is the `self.ua.random` draw made on attempt `i` — a fresh
sample from the `fake_useragent.UserAgent()` generator, unconstrained by any
configuration in this repository.  `transport i` is the combined outcome of
`self.session.get(...)` and `response.raise_for_status()` on attempt `i`:
a response, or the `requests.RequestException` raised. -/
structure FetchEnv where
  requestDelay : ℚ
  uaRandom : Nat → String
  transport : Nat → Except RequestException Response

/-- The two `time.sleep`/`session.get` effects performed at the top of one
iteration of the retry loop body (src/scrapers.py lines 34–39): sleep the
fixed request delay, then issue the GET with timeout `TIMEOUT` and a fresh
random `User-Agent` header. -/
def attemptEvents (env : FetchEnv) (url : String) (attempt : Nat) : List Event :=
  [Event.sleep env.requestDelay, Event.request url TIMEOUT (env.uaRandom attempt)]

/-- One step of `for attempt in range(maxRetries)` in `get_with_retry`
(src/scrapers.py lines 31–47).  `fuel` is the number of loop iterations still
allowed (`maxRetries - attempt` at every call site); running out of fuel is
the loop falling through, after which Python returns `None` (`Except.ok none`).
On a `RequestException`: re-raise on the last attempt
(`attempt == maxRetries - 1`), otherwise `time.sleep(2 ** attempt)` and retry. -/
def getWithRetryAux (env : FetchEnv) (maxRetries : Nat) (url : String) :
    Nat → Nat → List Event × Except RequestException (Option Response)
  | _, 0 => ([], Except.ok none)
  | attempt, fuel + 1 =>
    match env.transport attempt with
    | Except.ok response => (attemptEvents env url attempt, Except.ok (some response))
    | Except.error e =>
      if attempt = maxRetries - 1 then
        (attemptEvents env url attempt, Except.error e)
      else
        let rest := getWithRetryAux env maxRetries url (attempt + 1) fuel
        (attemptEvents env url attempt ++ Event.sleep ((2 : ℚ) ^ attempt) :: rest.1, rest.2)

/-- `get_with_retry` generalised over the configured retry cap, as the spec
quantifies over `maxRetries = N`.  Starts at `attempt = 0` with `maxRetries`
loop iterations available. -/
def get_with_retryN (env : FetchEnv) (maxRetries : Nat) (url : String) :
    List Event × Except RequestException (Option Response) :=
  getWithRetryAux env maxRetries url 0 maxRetries

/-- `NovaAutoScraper.get_with_retry` exactly as configured in the source:
the retry cap is the module constant `MAX_RETRIES`. -/
def get_with_retry (env : FetchEnv) (url : String) :
    List Event × Except RequestException (Option Response) :=
  get_with_retryN env MAX_RETRIES url

/-- Is this event a network request? -/
def Event.isRequest : Event → Bool
  | Event.request _ _ _ => true
  | _ => false

/-- The network attempts contained in a trace. -/
def requestsOf (evs : List Event) : List Event :=
  evs.filter Event.isRequest

/-- How many network attempts a trace contains. -/
def requestCount (evs : List Event) : Nat :=
  (requestsOf evs).length

theorem requestCount_append (l₁ l₂ : List Event) :
    requestCount (l₁ ++ l₂) = requestCount l₁ + requestCount l₂ := by
  simp [requestCount, requestsOf, List.filter_append]

theorem requestCount_attemptEvents (env : FetchEnv) (url : String) (i : Nat) :
    requestCount (attemptEvents env url i) = 1 := rfl

/-! ## The extractor (src/scrapers.py lines 49–90) -/

/-- An HTML element as the scraper touches it: its text content and its
attribute list (`found.get_text`, `found.has_attr(name)`, `found[name]`). -/
structure Elem where
  rawText : String
  attrs : List (String × String)
  deriving Repr, DecidableEq

/-- `found[name]`: the attribute's value when present. -/
def Elem.attr (e : Elem) (name : String) : Option String :=
  e.attrs.lookup name

/-- `found.has_attr(name)`. -/
def Elem.has_attr (e : Elem) (name : String) : Bool :=
  (e.attr name).isSome

/-- `found.get_text(strip=True)`: the element's text with surrounding
whitespace stripped (spelled out on the character list so that it computes
by kernel reduction). -/
def Elem.getTextStripped (e : Elem) : String :=
  String.mk (((e.rawText.toList.dropWhile Char.isWhitespace).reverse.dropWhile
    Char.isWhitespace).reverse)

/-- The five hardcoded sub-selectors used inside the listing loop:
`'h2.vehicle-title'`, `'.price'`, `'.mileage'`, `'a.vehicle-link'`,
`'img.vehicle-image'` (src/scrapers.py lines 62–66). -/
inductive Sel where
  | titleSel | priceSel | mileageSel | linkSel | imageSel
  deriving Repr, DecidableEq

/-- One `div.vehicle-listing` node, represented by what each of the five
fixed sub-selectors finds inside it (`none` when the sub-selector matches
no element). -/
structure Listing where
  title : Option Elem
  price : Option Elem
  mileage : Option Elem
  link : Option Elem
  image : Option Elem
  deriving Repr, DecidableEq

/-- `element.select_one(selector)` for the five selectors in use. -/
def Listing.select_one (l : Listing) : Sel → Option Elem
  | Sel.titleSel => l.title
  | Sel.priceSel => l.price
  | Sel.mileageSel => l.mileage
  | Sel.linkSel => l.link
  | Sel.imageSel => l.image

/-- Split a URL's characters at the first `"://"`: the scheme before it and
the remainder after it. -/
def findSchemeSplit : List Char → Option (List Char × List Char)
  | ':' :: '/' :: '/' :: rest => some ([], rest)
  | c :: rest => (findSchemeSplit rest).map (fun p => (c :: p.1, p.2))
  | [] => none

/-- The scheme-and-authority prefix of a URL (characters). -/
def urlOriginL (u : List Char) : List Char :=
  match findSchemeSplit u with
  | some (scheme, rest) => scheme ++ ':' :: '/' :: '/' :: rest.takeWhile (· ≠ '/')
  | none => u

/-- A path up to and including its last '/', or just "/" when it has none. -/
def dirOfPath (p : List Char) : List Char :=
  let d := (p.reverse.dropWhile (· ≠ '/')).reverse
  if d = [] then ['/'] else d

/-- The base URL up to and including the last '/' of its path, for resolving
plain relative references (characters). -/
def urlDirL (u : List Char) : List Char :=
  match findSchemeSplit u with
  | some (scheme, rest) =>
    let authority := rest.takeWhile (· ≠ '/')
    let path := rest.drop authority.length
    scheme ++ ':' :: '/' :: '/' :: authority ++ dirOfPath path
  | none => u ++ ['/']

/-- `urljoin base href` on character lists: an href with its own scheme is
absolute and returned unchanged; `//host/...` adopts the base's scheme;
`/path` is resolved against the base's scheme-and-authority; the empty href
yields the base; any other relative href is resolved against the base's
directory. -/
def urljoinL (base href : List Char) : List Char :=
  match findSchemeSplit href with
  | some _ => href
  | none =>
    match href with
    | '/' :: '/' :: rest =>
      match findSchemeSplit base with
      | some (scheme, _) => scheme ++ ':' :: '/' :: '/' :: rest
      | none => href
    | '/' :: _ => urlOriginL base ++ href
    | [] => base
    | _ => urlDirL base ++ href

/-- Model of `urllib.parse.urljoin` from the Python standard library (an
external capability of the code, not repository code), covering the href
shapes relevant here. -/
def urljoin (base href : String) : String :=
  String.mk (urljoinL base.toList href.toList)

/-- `_get_text` (src/scrapers.py lines 80–82):
`found.get_text(strip=True) if found else None`. -/
def _get_text (element : Listing) (selector : Sel) : Option String :=
  match element.select_one selector with
  | some found => some found.getTextStripped
  | none => none

/-- `_get_link` (src/scrapers.py lines 84–86):
`urljoin(BASE_URL, found['href']) if found and found.has_attr('href') else None`. -/
def _get_link (element : Listing) (selector : Sel) : Option String :=
  match element.select_one selector with
  | some found =>
    match found.attr "href" with
    | some href => some (urljoin BASE_URL href)
    | none => none
  | none => none

/-- `_get_image` (src/scrapers.py lines 88–90):
`found['src'] if found and found.has_attr('src') else None`. -/
def _get_image (element : Listing) (selector : Sel) : Option String :=
  match element.select_one selector with
  | some found =>
    match found.attr "src" with
    | some src => some src
    | none => none
  | none => none

/-- The record built for one listing (src/scrapers.py lines 61–67):
`{title: ..., price: ..., mileage: ..., link: ..., image: ...}`. -/
structure VehicleRecord where
  title : Option String
  price : Option String
  mileage : Option String
  link : Option String
  image : Option String
  deriving Repr, DecidableEq

/-- The dictionary construction inside the per-listing `try`
(src/scrapers.py lines 61–67). -/
def buildVehicle (listing : Listing) : VehicleRecord :=
  { title := _get_text listing Sel.titleSel
    price := _get_text listing Sel.priceSel
    mileage := _get_text listing Sel.mileageSel
    link := _get_link listing Sel.linkSel
    image := _get_image listing Sel.imageSel }

/-- The body of the per-listing `try` as a fallible computation.  Under this
node model every operation in the body is total, so it always succeeds with
`buildVehicle listing`; the `Except` type records that the Python code is
prepared for it to raise. -/
def extractListing (listing : Listing) : Except PyExc VehicleRecord :=
  Except.ok (buildVehicle listing)

/-- The listing loop (src/scrapers.py lines 59–71): for each listing try the
extraction `extract`; append its record on success, log and `continue` on any
exception. -/
def processListings (extract : Listing → Except PyExc VehicleRecord) :
    List Listing → List VehicleRecord
  | [] => []
  | l :: rest =>
    match extract l with
    | Except.ok vehicle => vehicle :: processListings extract rest
    | Except.error _ => processListings extract rest

/-- The parsed document: `soup.select('div.vehicle-listing')` results in
document order (src/scrapers.py line 56). -/
structure Document where
  listings : List Listing
  deriving Repr

/-- Environment of one `scrape_vehicle_listings` call: the fetcher's oracles
plus the `BeautifulSoup(response.content, 'html.parser')` + `soup.select`
capability, allowed to fail so the outer `except Exception` branch is
reachable. -/
structure ScrapeEnv where
  fetchEnv : FetchEnv
  parse : Response → Except PyExc Document

/-- The body of the outer `try` of `scrape_vehicle_listings`
(src/scrapers.py lines 50–74): fetch `BASE_URL` with retry (a raised
`RequestException` propagates here), parse and select, then run the listing
loop.  A fall-through `None` from `get_with_retry` (impossible when
`MAX_RETRIES ≥ 1`) would raise when `response.content` is read. -/
def scrapeBody (env : ScrapeEnv) (extract : Listing → Except PyExc VehicleRecord) :
    Except PyExc (List VehicleRecord) :=
  match (get_with_retry env.fetchEnv BASE_URL).2 with
  | Except.error e => Except.error (PyExc.req e)
  | Except.ok none => Except.error (PyExc.other "NoneType has no attribute content")
  | Except.ok (some response) =>
    match env.parse response with
    | Except.error e => Except.error e
    | Except.ok soup => Except.ok (processListings extract soup.listings)

/-- `scrape_vehicle_listings` (src/scrapers.py lines 49–78): the outer
`except Exception` turns any escaped error into the empty list.  The body of
the per-listing `try` is passed as `extract`; the source instantiates it
with `extractListing`. -/
def scrape_vehicle_listings (env : ScrapeEnv)
    (extract : Listing → Except PyExc VehicleRecord) : List VehicleRecord :=
  match scrapeBody env extract with
  | Except.ok vehicles => vehicles
  | Except.error _ => []

/-! ## The configuration dictionary (src/config.py) -/

/-- The shape of `SCRAPER_CONFIG` in src/config.py. -/
structure ScraperConfig where
  base_url : String
  timeout : Nat
  max_retries : Nat
  delay_range : ℚ × ℚ
  user_agents : List String
  output_file : String
  deriving Repr, DecidableEq

/-- `SCRAPER_CONFIG` (src/config.py lines 2–12).  Nothing in
src/scrapers.py imports it. -/
def SCRAPER_CONFIG : ScraperConfig :=
  { base_url := "https://novaautoland.com"
    timeout := 15
    max_retries := 3
    delay_range := (1, 5)
    user_agents :=
      ["Mozilla/5.0 (Windows NT 10.0; Win64; x64) AppleWebKit/537.36 (KHTML, like Gecko) Chrome/91.0.4472.124 Safari/537.36",
       "Mozilla/5.0 (Macintosh; Intel Mac OS X 10_15_7) AppleWebKit/537.36 (KHTML, like Gecko) Chrome/91.0.4472.114 Safari/537.36"]
    output_file := "scraped_data.json" }

/-- The whole observable behaviour of one scrape, as a function of the
process configuration: the fetcher's event trace and the returned records.
`cfg` is in scope for the process (config.py is part of the repository) but
src/scrapers.py never imports it, which the definition mirrors by not
consulting `cfg`. -/
def runScraper (_cfg : ScraperConfig) (env : ScrapeEnv) :
    List Event × List VehicleRecord :=
  ((get_with_retry env.fetchEnv BASE_URL).1, scrape_vehicle_listings env extractListing)

/-! ## Retry-loop lemmas -/

/-- The events of one failed non-final attempt: pre-request delay, the
request itself, then the exponential-backoff sleep. -/
def failedAttemptEvents (env : FetchEnv) (url : String) (i : Nat) : List Event :=
  attemptEvents env url i ++ [Event.sleep ((2 : ℚ) ^ i)]

theorem requestCount_sleep_cons (q : ℚ) (l : List Event) :
    requestCount (Event.sleep q :: l) = requestCount l := by
  simp [requestCount, requestsOf, Event.isRequest]

theorem requestCount_aux_le (env : FetchEnv) (N : Nat) (url : String) :
    ∀ fuel a, requestCount (getWithRetryAux env N url a fuel).1 ≤ fuel := by
  intro fuel
  induction fuel with
  | zero => intro a; simp [getWithRetryAux, requestCount, requestsOf]
  | succ n ih =>
    intro a
    simp only [getWithRetryAux]
    cases h : env.transport a with
    | ok r =>
      simp [requestCount, requestsOf, attemptEvents, Event.isRequest]
    | error e =>
      by_cases hlast : a = N - 1
      · simp [hlast, requestCount, requestsOf, attemptEvents, Event.isRequest]
      · have := ih (a + 1)
        simp only [if_neg hlast]
        rw [requestCount_append]
        rw [requestCount_sleep_cons]
        simp only [requestCount_attemptEvents]
        omega

/-- Closed form of the retry loop when the first `k` attempts fail and
attempt `k` succeeds. -/
theorem aux_success (env : FetchEnv) (N : Nat) (url : String) (k : Nat) (r : Response)
    (hk : k < N)
    (hfail : ∀ i, i < k → ∃ er, env.transport i = Except.error er)
    (hok : env.transport k = Except.ok r) :
    ∀ fuel a, a + fuel = N → a ≤ k →
      getWithRetryAux env N url a fuel =
        ((List.range' a (k - a)).flatMap (failedAttemptEvents env url) ++
           attemptEvents env url k,
         Except.ok (some r)) := by
  intro fuel
  induction fuel with
  | zero => intro a hN hak; omega
  | succ n ih =>
    intro a hN hak
    rcases Nat.eq_or_lt_of_le hak with heq | hlt
    · subst heq
      simp [getWithRetryAux, hok, Nat.sub_self]
    · obtain ⟨er, her⟩ := hfail a hlt
      have hne : a ≠ N - 1 := by omega
      have e1 : k - a = (k - (a + 1)) + 1 := by omega
      simp only [getWithRetryAux, her, if_neg hne]
      rw [ih (a + 1) (by omega) (by omega)]
      rw [e1, List.range'_succ]
      simp [failedAttemptEvents, List.append_assoc]

/-- Closed form of the retry loop when every attempt up to the cap fails. -/
theorem aux_allfail (env : FetchEnv) (N : Nat) (url : String) (e : RequestException)
    (hfail : ∀ i, i < N → ∃ er, env.transport i = Except.error er)
    (hlasterr : env.transport (N - 1) = Except.error e) :
    ∀ fuel a, a + fuel = N → a < N →
      getWithRetryAux env N url a fuel =
        ((List.range' a (N - 1 - a)).flatMap (failedAttemptEvents env url) ++
           attemptEvents env url (N - 1),
         Except.error e) := by
  intro fuel
  induction fuel with
  | zero => intro a hN haN; omega
  | succ n ih =>
    intro a hN haN
    by_cases hlast : a = N - 1
    · subst hlast
      simp [getWithRetryAux, hlasterr, Nat.sub_self]
    · obtain ⟨er, her⟩ := hfail a haN
      have e1 : N - 1 - a = (N - 1 - (a + 1)) + 1 := by omega
      simp only [getWithRetryAux, her, if_neg hlast]
      rw [ih (a + 1) (by omega) (by omega)]
      rw [e1, List.range'_succ]
      simp [failedAttemptEvents, List.append_assoc]

theorem requestCount_chunks (env : FetchEnv) (url : String) :
    ∀ n s, requestCount ((List.range' s n).flatMap (failedAttemptEvents env url)) = n := by
  intro n
  induction n with
  | zero => intro s; simp [requestCount, requestsOf]
  | succ m ih =>
    intro s
    rw [List.range'_succ]
    simp only [List.flatMap_cons]
    rw [requestCount_append, ih]
    rw [show requestCount (failedAttemptEvents env url s) = 1 from rfl]
    omega

/-- The requests a trace of the retry loop contains: one per attempt index,
each with timeout `TIMEOUT` and that attempt's fresh user-agent draw. -/
theorem requestsOf_aux (env : FetchEnv) (N : Nat) (url : String) :
    ∀ fuel a,
      requestsOf (getWithRetryAux env N url a fuel).1 =
        (List.range' a (requestCount (getWithRetryAux env N url a fuel).1)).map
          (fun i => Event.request url TIMEOUT (env.uaRandom i)) := by
  intro fuel
  induction fuel with
  | zero => intro a; simp [getWithRetryAux, requestCount, requestsOf]
  | succ n ih =>
    intro a
    simp only [getWithRetryAux]
    cases h : env.transport a with
    | ok r =>
      simp [requestCount, requestsOf, attemptEvents, Event.isRequest]
    | error e =>
      by_cases hlast : a = N - 1
      · simp [hlast, requestCount, requestsOf, attemptEvents, Event.isRequest]
      · simp only [if_neg hlast]
        have hcount :
            requestCount
                (attemptEvents env url a ++
                  Event.sleep ((2 : ℚ) ^ a) :: (getWithRetryAux env N url (a + 1) n).1) =
              requestCount (getWithRetryAux env N url (a + 1) n).1 + 1 := by
          rw [requestCount_append, requestCount_sleep_cons, requestCount_attemptEvents]
          omega
        rw [hcount, List.range'_succ]
        simp only [List.map_cons]
        rw [← ih (a + 1)]
        simp [requestsOf, attemptEvents, Event.isRequest, List.filter_append]

/-- The values of the sleeps that immediately precede a request in a trace:
the pre-request delays, one per attempt. -/
def delaySleeps : List Event → List ℚ
  | Event.sleep s :: Event.request _ _ _ :: rest => s :: delaySleeps rest
  | _ :: rest => delaySleeps rest
  | [] => []

/-- Does the trace start with a request event? -/
def headIsRequest : List Event → Bool
  | Event.request _ _ _ :: _ => true
  | _ => false

theorem delaySleeps_sleep_cons (x : ℚ) (l : List Event)
    (h : headIsRequest l = false) :
    delaySleeps (Event.sleep x :: l) = delaySleeps l := by
  cases l with
  | nil => simp [delaySleeps]
  | cons e rest => cases e <;> simp_all [delaySleeps, headIsRequest]

theorem aux_head_not_request (env : FetchEnv) (N : Nat) (url : String)
    (fuel a : Nat) :
    headIsRequest (getWithRetryAux env N url a fuel).1 = false := by
  cases fuel with
  | zero => rfl
  | succ n =>
    simp only [getWithRetryAux]
    cases h : env.transport a with
    | ok r => rfl
    | error e =>
      by_cases hlast : a = N - 1 <;> simp [hlast, attemptEvents, headIsRequest]

/-- Every pre-request sleep in a trace of the retry loop is the single
construction-time delay, one per attempt performed. -/
theorem delaySleeps_aux (env : FetchEnv) (N : Nat) (url : String) :
    ∀ fuel a,
      delaySleeps (getWithRetryAux env N url a fuel).1 =
        List.replicate (requestCount (getWithRetryAux env N url a fuel).1)
          env.requestDelay := by
  intro fuel
  induction fuel with
  | zero => intro a; simp [getWithRetryAux, delaySleeps, requestCount, requestsOf]
  | succ n ih =>
    intro a
    simp only [getWithRetryAux]
    cases h : env.transport a with
    | ok r =>
      simp [attemptEvents, delaySleeps, requestCount, requestsOf, Event.isRequest]
    | error e =>
      by_cases hlast : a = N - 1
      · simp [hlast, attemptEvents, delaySleeps, requestCount, requestsOf,
          Event.isRequest]
      · simp only [if_neg hlast]
        have hcount :
            requestCount
                (attemptEvents env url a ++
                  Event.sleep ((2 : ℚ) ^ a) :: (getWithRetryAux env N url (a + 1) n).1) =
              requestCount (getWithRetryAux env N url (a + 1) n).1 + 1 := by
          rw [requestCount_append, requestCount_sleep_cons, requestCount_attemptEvents]
          omega
        rw [hcount]
        simp only [attemptEvents, List.cons_append, List.nil_append]
        rw [show ∀ s u t ua rest, delaySleeps (Event.sleep s :: Event.request u t ua :: rest)
              = s :: delaySleeps rest from fun _ _ _ _ _ => by simp [delaySleeps]]
        rw [delaySleeps_sleep_cons _ _ (aux_head_not_request env N url n (a + 1))]
        rw [ih (a + 1)]
        simp [List.replicate_succ]

/-! ## Claim theorems: the fetcher -/

/-- C1: for every configured `maxRetries = N` (≥ 1), `get_with_retry` makes
at most `N` network attempts; when every attempt fails it makes exactly `N`
attempts (never `N + 1`) and the last underlying error is the one raised;
when the first `k` attempts fail and attempt `k` (0-indexed, `k < N`)
succeeds, it returns that response having made exactly `k + 1` attempts. -/
theorem getWithRetry_attempt_bound (env : FetchEnv) (N : Nat) (url : String)
    (hN : 1 ≤ N) :
    requestCount (get_with_retryN env N url).1 ≤ N
  ∧ (∀ e, (∀ i, i < N → ∃ er, env.transport i = Except.error er) →
      env.transport (N - 1) = Except.error e →
      requestCount (get_with_retryN env N url).1 = N ∧
        (get_with_retryN env N url).2 = Except.error e)
  ∧ (∀ k r, k < N → (∀ i, i < k → ∃ er, env.transport i = Except.error er) →
      env.transport k = Except.ok r →
      requestCount (get_with_retryN env N url).1 = k + 1 ∧
        (get_with_retryN env N url).2 = Except.ok (some r)) := by
  refine ⟨requestCount_aux_le env N url N 0, ?_, ?_⟩
  · intro e hfail hlast
    have h := aux_allfail env N url e hfail hlast N 0 (by omega) (by omega)
    have h1 := congrArg Prod.fst h
    have h2 := congrArg Prod.snd h
    simp only [get_with_retryN] at *
    rw [h1, h2]
    refine ⟨?_, rfl⟩
    rw [requestCount_append, requestCount_chunks, requestCount_attemptEvents]
    omega
  · intro k r hk hfail hok
    have h := aux_success env N url k r hk hfail hok N 0 (by omega) (Nat.zero_le k)
    have h1 := congrArg Prod.fst h
    have h2 := congrArg Prod.snd h
    simp only [get_with_retryN] at *
    rw [h1, h2]
    refine ⟨?_, rfl⟩
    rw [requestCount_append, requestCount_chunks, requestCount_attemptEvents]
    omega

/-- A transport that fails on every attempt with the same network error. -/
def envAllFail : FetchEnv :=
  { requestDelay := 2
    uaRandom := fun _ => "UA"
    transport := fun _ => Except.error (RequestException.network "conn reset") }

/-- Witness for C1: with `maxRetries = 3` and an always-failing transport,
exactly 3 attempts happen and the last error surfaces. -/
theorem getWithRetry_attempt_bound_witness :
    requestCount (get_with_retryN envAllFail 3 BASE_URL).1 = 3 ∧
    (get_with_retryN envAllFail 3 BASE_URL).2 =
      Except.error (RequestException.network "conn reset") :=
  (getWithRetry_attempt_bound envAllFail 3 BASE_URL (by decide)).2.1
    (RequestException.network "conn reset")
    (fun _ _ => ⟨RequestException.network "conn reset", rfl⟩) rfl

/-- C2: the trace of a `get_with_retry` call is, for each failed non-final
attempt `i` (0-indexed), that attempt's events followed by a backoff sleep of
exactly `2 ^ i` seconds, and the final attempt's events carry no backoff
sleep after them — both when attempt `k` succeeds after `k` failures and when
all `N` attempts fail. -/
theorem getWithRetry_backoff (env : FetchEnv) (N : Nat) (url : String)
    (hN : 1 ≤ N) :
    (∀ k r, k < N → (∀ i, i < k → ∃ er, env.transport i = Except.error er) →
      env.transport k = Except.ok r →
      (get_with_retryN env N url).1 =
        (List.range' 0 k).flatMap
            (fun i => attemptEvents env url i ++ [Event.sleep ((2 : ℚ) ^ i)]) ++
          attemptEvents env url k)
  ∧ ((∀ i, i < N → ∃ er, env.transport i = Except.error er) →
      (get_with_retryN env N url).1 =
        (List.range' 0 (N - 1)).flatMap
            (fun i => attemptEvents env url i ++ [Event.sleep ((2 : ℚ) ^ i)]) ++
          attemptEvents env url (N - 1)) := by
  constructor
  · intro k r hk hfail hok
    have h := congrArg Prod.fst
      (aux_success env N url k r hk hfail hok N 0 (by omega) (Nat.zero_le k))
    simpa [get_with_retryN, failedAttemptEvents] using h
  · intro hfail
    obtain ⟨e, he⟩ := hfail (N - 1) (by omega)
    have h := congrArg Prod.fst
      (aux_allfail env N url e hfail he N 0 (by omega) (by omega))
    simpa [get_with_retryN, failedAttemptEvents] using h

/-- A transport failing on attempts 0 and 1 and succeeding on attempt 2. -/
def envFailTwice : FetchEnv :=
  { requestDelay := 3
    uaRandom := fun _ => "UA2"
    transport := fun i =>
      if i < 2 then Except.error (RequestException.httpStatus 500)
      else Except.ok { content := "page" } }

/-- Witness for C2: two failures then success yields backoff sleeps of
`2 ^ 0` and `2 ^ 1` and none after the successful final attempt. -/
theorem getWithRetry_backoff_witness :
    (get_with_retryN envFailTwice 3 BASE_URL).1 =
      (List.range' 0 2).flatMap
          (fun i => attemptEvents envFailTwice BASE_URL i ++
            [Event.sleep ((2 : ℚ) ^ i)]) ++
        attemptEvents envFailTwice BASE_URL 2 :=
  (getWithRetry_backoff envFailTwice 3 BASE_URL (by decide)).1 2
    { content := "page" } (by decide)
    (fun i hi => ⟨RequestException.httpStatus 500, by simp [envFailTwice, hi]⟩) rfl

/-- C8: the pre-request delay is a single value (the module-level
`REQUEST_DELAY = random.uniform(1, 5)`, drawn once, before any scraper is
constructed): every attempt of every `get_with_retry` call — whatever its
URL or retry cap — is preceded by a sleep of exactly that value, one
pre-request sleep per attempt, never re-randomized, and the value lies in
the `[1, 5]` range of the draw. -/
theorem requestDelay_drawn_once (env : FetchEnv) (N₁ N₂ : Nat) (u₁ u₂ : String)
    (h1 : 1 ≤ env.requestDelay) (h5 : env.requestDelay ≤ 5) :
    delaySleeps (get_with_retryN env N₁ u₁).1 =
      List.replicate (requestCount (get_with_retryN env N₁ u₁).1) env.requestDelay
  ∧ delaySleeps (get_with_retryN env N₂ u₂).1 =
      List.replicate (requestCount (get_with_retryN env N₂ u₂).1) env.requestDelay
  ∧ (∀ s ∈ delaySleeps (get_with_retryN env N₁ u₁).1,
      s = env.requestDelay ∧ 1 ≤ s ∧ s ≤ 5) := by
  refine ⟨delaySleeps_aux env N₁ u₁ N₁ 0, delaySleeps_aux env N₂ u₂ N₂ 0, ?_⟩
  intro s hs
  rw [show (get_with_retryN env N₁ u₁) = getWithRetryAux env N₁ u₁ 0 N₁ from rfl,
    delaySleeps_aux env N₁ u₁ N₁ 0] at hs
  have heq := List.eq_of_mem_replicate hs
  exact ⟨heq, heq ▸ h1, heq ▸ h5⟩

/-- Witness for C8: a concrete environment whose once-drawn delay is 3
sleeps 3 before every attempt of two different calls. -/
theorem requestDelay_drawn_once_witness :
    (delaySleeps (get_with_retryN envFailTwice 3 BASE_URL).1 =
      List.replicate (requestCount (get_with_retryN envFailTwice 3 BASE_URL).1)
        envFailTwice.requestDelay)
  ∧ (delaySleeps (get_with_retryN envFailTwice 2 "https://novaautoland.com/inventory").1 =
      List.replicate
        (requestCount (get_with_retryN envFailTwice 2 "https://novaautoland.com/inventory").1)
        envFailTwice.requestDelay)
  ∧ (∀ s ∈ delaySleeps (get_with_retryN envFailTwice 3 BASE_URL).1,
      s = envFailTwice.requestDelay ∧ 1 ≤ s ∧ s ≤ 5) :=
  requestDelay_drawn_once envFailTwice 3 2 BASE_URL
    "https://novaautoland.com/inventory" (by norm_num [envFailTwice])
    (by norm_num [envFailTwice])

/-- An execution in which the `fake_useragent` generator returns a string
that does not occur in config.py's `user_agents` list. -/
def envOffPoolUA : FetchEnv :=
  { requestDelay := 2
    uaRandom := fun _ => "curl/8.0"
    transport := fun _ => Except.ok { content := "ok" } }

/-- C7 counterexample: a `get_with_retry` execution whose one request carries
the User-Agent "curl/8.0" — a possible `fake_useragent` draw that is not in
`SCRAPER_CONFIG.user_agents` — and carries the hardcoded timeout 10 while
`SCRAPER_CONFIG.timeout` is 15.  So the GET is issued neither with the
settings object's timeout nor with a header drawn from its user-agent pool. -/
theorem request_headers_counterexample :
    requestsOf (get_with_retry envOffPoolUA BASE_URL).1 =
      [Event.request BASE_URL 10 "curl/8.0"]
  ∧ "curl/8.0" ∉ SCRAPER_CONFIG.user_agents
  ∧ TIMEOUT ≠ SCRAPER_CONFIG.timeout :=
  ⟨rfl, by decide, by decide⟩

/-- C7 amended: on every attempt the Fetcher issues the GET with the
hardcoded module constant `TIMEOUT = 10` from scrapers.py (not the settings
object's timeout) and with that attempt's fresh draw from the
`fake_useragent` generator — the draws are per-attempt but are not taken
from `SCRAPER_CONFIG.user_agents`. -/
theorem request_headers_amended (env : FetchEnv) (N : Nat) (url : String) :
    requestsOf (get_with_retryN env N url).1 =
      (List.range' 0 (requestCount (get_with_retryN env N url).1)).map
        (fun i => Event.request url TIMEOUT (env.uaRandom i))
  ∧ TIMEOUT = 10 :=
  ⟨requestsOf_aux env N url N 0, rfl⟩

/-! ## Claim theorems: the extractor -/

/-- Did this listing's extraction succeed (not raise)? -/
def extractOk (extract : Listing → Except PyExc VehicleRecord) (l : Listing) : Bool :=
  match extract l with
  | Except.ok _ => true
  | Except.error _ => false

theorem processListings_eq_filterMap
    (extract : Listing → Except PyExc VehicleRecord) (ls : List Listing) :
    processListings extract ls = ls.filterMap (fun l => (extract l).toOption) := by
  induction ls with
  | nil => rfl
  | cons l rest ih =>
    cases h : extract l <;> simp [processListings, h, ih, Except.toOption]

theorem processListings_length
    (extract : Listing → Except PyExc VehicleRecord) (ls : List Listing) :
    (processListings extract ls).length = ls.countP (extractOk extract) := by
  induction ls with
  | nil => rfl
  | cons l rest ih =>
    cases h : extract l <;> simp [processListings, h, ih, List.countP_cons, extractOk]

/-- C3: `scrape_vehicle_listings` never propagates an exception to its
caller — it returns a plain list.  Whenever the fetch fails after retry
exhaustion, and more generally whenever any error escapes the stages outside
the per-listing loop (parsing, selection), the result is the empty list. -/
theorem scrape_never_raises (env : ScrapeEnv)
    (extract : Listing → Except PyExc VehicleRecord) :
    (∀ e, scrapeBody env extract = Except.error e →
      scrape_vehicle_listings env extract = [])
  ∧ (∀ e, (get_with_retry env.fetchEnv BASE_URL).2 = Except.error e →
      scrape_vehicle_listings env extract = []) := by
  constructor
  · intro e he
    simp [scrape_vehicle_listings, he]
  · intro e he
    simp [scrape_vehicle_listings, scrapeBody, he]

/-- A scrape whose transport refuses every connection. -/
def scrapeEnvFetchFail : ScrapeEnv :=
  { fetchEnv :=
      { requestDelay := 1
        uaRandom := fun _ => "UA3"
        transport := fun _ => Except.error (RequestException.network "refused") }
    parse := fun _ => Except.ok { listings := [] } }

/-- Witness for C3: retry exhaustion degrades to the empty list. -/
theorem scrape_never_raises_witness :
    scrape_vehicle_listings scrapeEnvFetchFail extractListing = [] :=
  (scrape_never_raises scrapeEnvFetchFail extractListing).2
    (RequestException.network "refused") rfl

/-- C4: for every fetched and parsed document, the returned sequence is the
per-listing extraction results in document order with raising listings
skipped — the filterMap of the listing nodes by the extraction, with no
deduplication or sorting — so its length equals the number of listing
elements whose extraction did not raise, and zero matching listing nodes
yield the empty list rather than an error. -/
theorem scrape_records_per_listing (env : ScrapeEnv)
    (extract : Listing → Except PyExc VehicleRecord)
    (resp : Response) (doc : Document)
    (hfetch : (get_with_retry env.fetchEnv BASE_URL).2 = Except.ok (some resp))
    (hparse : env.parse resp = Except.ok doc) :
    scrape_vehicle_listings env extract =
      doc.listings.filterMap (fun l => (extract l).toOption)
  ∧ (scrape_vehicle_listings env extract).length =
      doc.listings.countP (extractOk extract)
  ∧ (doc.listings = [] → scrape_vehicle_listings env extract = []) := by
  have hmain : scrape_vehicle_listings env extract =
      processListings extract doc.listings := by
    simp [scrape_vehicle_listings, scrapeBody, hfetch, hparse]
  refine ⟨?_, ?_, ?_⟩
  · rw [hmain, processListings_eq_filterMap]
  · rw [hmain, processListings_length]
  · intro h
    rw [hmain, h]
    rfl

/-- A complete listing: all five sub-elements present, link with an href
and image with a src. -/
def listingFull : Listing :=
  { title := some { rawText := " 2020 Civic ", attrs := [] }
    price := some { rawText := "$18,000", attrs := [] }
    mileage := some { rawText := "30,000 mi", attrs := [] }
    link := some { rawText := "", attrs := [("href", "/v/1")] }
    image := some { rawText := "", attrs := [("src", "/i/1.jpg")] } }

/-- A listing node missing all five sub-elements. -/
def listingEmpty : Listing :=
  { title := none, price := none, mileage := none, link := none, image := none }

/-- A fixture document with one complete and one empty listing. -/
def docTwo : Document := { listings := [listingFull, listingEmpty] }

/-- A scrape whose fetch succeeds and parses to `docTwo`. -/
def scrapeEnvOk : ScrapeEnv :=
  { fetchEnv :=
      { requestDelay := 1
        uaRandom := fun _ => "UA4"
        transport := fun _ => Except.ok { content := "<html>" } }
    parse := fun _ => Except.ok docTwo }

/-- A strict extraction that raises on listings without a title, to exercise
the skip branch of the loop. -/
def extractStrict (l : Listing) : Except PyExc VehicleRecord :=
  if l.title = none then Except.error (PyExc.other "missing title")
  else extractListing l

/-- Witness for C4: on the two-listing fixture with a strict extraction, the
raising listing is skipped and exactly the non-raising one is kept. -/
theorem scrape_records_per_listing_witness :
    scrape_vehicle_listings scrapeEnvOk extractStrict =
      docTwo.listings.filterMap (fun l => (extractStrict l).toOption)
  ∧ (scrape_vehicle_listings scrapeEnvOk extractStrict).length =
      docTwo.listings.countP (extractOk extractStrict)
  ∧ (docTwo.listings = [] → scrape_vehicle_listings scrapeEnvOk extractStrict = []) :=
  scrape_records_per_listing scrapeEnvOk extractStrict
    { content := "<html>" } docTwo rfl rfl

/-- C5: field extraction is tolerant per field.  The actual extraction never
raises — it emits a record for every listing — and each of the five fields
whose sub-element is absent is null in that record, every field of a
listing missing all five sub-elements is null, and the title/price/mileage
text is the sub-element's text with surrounding whitespace stripped when
present. -/
theorem field_extraction_tolerant (l : Listing) :
    extractListing l = Except.ok (buildVehicle l)
  ∧ (l.title = none → (buildVehicle l).title = none)
  ∧ (l.price = none → (buildVehicle l).price = none)
  ∧ (l.mileage = none → (buildVehicle l).mileage = none)
  ∧ (l.link = none → (buildVehicle l).link = none)
  ∧ (l.image = none → (buildVehicle l).image = none)
  ∧ (∀ e, l.title = some e → (buildVehicle l).title = some e.getTextStripped)
  ∧ (∀ e, l.price = some e → (buildVehicle l).price = some e.getTextStripped)
  ∧ (∀ e, l.mileage = some e → (buildVehicle l).mileage = some e.getTextStripped)
  ∧ buildVehicle listingEmpty =
      { title := none, price := none, mileage := none, link := none, image := none } := by
  refine ⟨rfl, ?_, ?_, ?_, ?_, ?_, ?_, ?_, ?_, rfl⟩ <;>
    intros <;>
    simp_all [buildVehicle, _get_text, _get_link, _get_image, Listing.select_one]

/-- Witness for C5: the complete listing's title comes out trimmed, and the
empty listing still yields a record, with null fields. -/
theorem field_extraction_tolerant_witness :
    (buildVehicle listingFull).title = some "2020 Civic"
  ∧ (buildVehicle listingEmpty).price = none
  ∧ extractListing listingEmpty = Except.ok (buildVehicle listingEmpty) := by
  refine ⟨?_, (field_extraction_tolerant listingEmpty).2.2.1 rfl,
    (field_extraction_tolerant listingEmpty).1⟩
  rw [(field_extraction_tolerant listingFull).2.2.2.2.2.2.1
    { rawText := " 2020 Civic ", attrs := [] } rfl]
  decide

/-- C6: for a listing whose link sub-element carries an href, the record's
`link` is that href resolved against `BASE_URL` by `urljoin` — a
root-relative href is prefixed with the base's scheme and authority (the
spec's example: `/car/42` against `https://example.com`), an href with its
own scheme is returned unchanged — while the record's `image` is the image
sub-element's `src` attribute verbatim, unresolved. -/
theorem link_resolution (l : Listing) (a img : Elem) (href src : String) :
    (l.link = some a → a.attr "href" = some href →
      (buildVehicle l).link = some (urljoin BASE_URL href))
  ∧ urljoin "https://example.com" "/car/42" = "https://example.com/car/42"
  ∧ (∀ base u, (findSchemeSplit u.toList).isSome → urljoin base u = u)
  ∧ (l.image = some img → img.attr "src" = some src →
      (buildVehicle l).image = some src) := by
  refine ⟨?_, by decide, ?_, ?_⟩
  · intro hl ha
    simp [buildVehicle, _get_link, Listing.select_one, hl, ha]
  · intro base u h
    unfold urljoin urljoinL
    cases hs : findSchemeSplit u.toList with
    | none => rw [hs] at h; simp at h
    | some p => rfl
  · intro hi ha
    simp [buildVehicle, _get_image, Listing.select_one, hi, ha]

/-- Witness for C6: the fixture's `/v/1` href resolves to an absolute URL
against the hardcoded base, the spec's example resolves as stated, an
absolute href is untouched, and the image src stays verbatim. -/
theorem link_resolution_witness :
    (buildVehicle listingFull).link = some "https://novaautoland.com/v/1"
  ∧ urljoin "https://example.com" "/car/42" = "https://example.com/car/42"
  ∧ urljoin BASE_URL "https://cdn.example.com/a.jpg" = "https://cdn.example.com/a.jpg"
  ∧ (buildVehicle listingFull).image = some "/i/1.jpg" := by
  have h := link_resolution listingFull { rawText := "", attrs := [("href", "/v/1")] }
    { rawText := "", attrs := [("src", "/i/1.jpg")] } "/v/1" "/i/1.jpg"
  refine ⟨?_, h.2.1, h.2.2.1 BASE_URL "https://cdn.example.com/a.jpg" (by decide),
    h.2.2.2 rfl rfl⟩
  rw [h.1 rfl rfl]
  decide

/-- C9: the three field helpers are total over any listing-node shape: a
sub-selector matching no element yields null from each helper, a matched
anchor without an `href` or image without a `src` yields null, and therefore
the actual extraction always succeeds — the per-listing exception-skip
branch is unreachable and the loop keeps every listing. -/
theorem field_helpers_total (l : Listing) (sel : Sel) (f : Elem) (ls : List Listing) :
    (l.select_one sel = none →
      _get_text l sel = none ∧ _get_link l sel = none ∧ _get_image l sel = none)
  ∧ (l.select_one sel = some f → f.attr "href" = none → _get_link l sel = none)
  ∧ (l.select_one sel = some f → f.attr "src" = none → _get_image l sel = none)
  ∧ extractListing l = Except.ok (buildVehicle l)
  ∧ (processListings extractListing ls).length = ls.length := by
  refine ⟨?_, ?_, ?_, rfl, ?_⟩
  · intro h
    exact ⟨by simp [_get_text, h], by simp [_get_link, h], by simp [_get_image, h]⟩
  · intro h ha
    simp [_get_link, h, ha]
  · intro h ha
    simp [_get_image, h, ha]
  · rw [processListings_length]
    simp [extractOk, extractListing]

/-- Witness for C9: on the empty listing every helper returns null, and the
loop over the two-listing fixture keeps both listings. -/
theorem field_helpers_total_witness :
    (_get_text listingEmpty Sel.titleSel = none
      ∧ _get_link listingEmpty Sel.titleSel = none
      ∧ _get_image listingEmpty Sel.titleSel = none)
  ∧ (processListings extractListing [listingFull, listingEmpty]).length = 2 := by
  have h := field_helpers_total listingEmpty Sel.titleSel
    { rawText := "", attrs := [] } [listingFull, listingEmpty]
  exact ⟨h.1 rfl, h.2.2.2.2⟩

/-! ## Claim theorem: configuration independence -/

/-- C10: the scraper's observable behaviour — fetch trace and returned
records — is the same under any two assignments of the `SCRAPER_CONFIG`
settings object, because src/scrapers.py reads only its own hardcoded module
constants (`MAX_RETRIES = 3`, `TIMEOUT = 10`, `BASE_URL`) and never imports
`SCRAPER_CONFIG`; in particular the hardcoded timeout differs from the
configured one. -/
theorem scraper_config_independent (cfg₁ cfg₂ : ScraperConfig) (env : ScrapeEnv) :
    runScraper cfg₁ env = runScraper cfg₂ env
  ∧ MAX_RETRIES = 3
  ∧ TIMEOUT = 10
  ∧ BASE_URL = "https://novaautoland.com"
  ∧ TIMEOUT ≠ SCRAPER_CONFIG.timeout :=
  ⟨rfl, rfl, rfl, rfl, by decide⟩
